import Mathlib

/-!
# Integration & Analysis Result Pipeline — shallow embedding

A shallow embedding of the integration registry and analysis pipeline of
`src/api/integration_manager.rs` (the `IntegrationManager` type and its
methods), together with theorems settling the specification claims.

Modelling conventions:
* `serde_json::Value` is embedded as the inductive `Json`; JSON numbers are
  rationals (`ℚ`), which models the exact values the code writes.
* `HashMap<String, V>` is embedded as an association list `List (String × V)`;
  `get` is first-match lookup, `insert` replaces, `remove` filters, and
  `get_mut`-then-mutate is `mapModify`.
* `DateTime<Utc>` is an `Int` timestamp parameter; wall-clock readings
  (`Utc::now()`, elapsed time, the RFC 3339 string used in metrics) are
  inputs to the functions that read the clock.
* External capabilities are function parameters: the Ollama inference call
  `generate_optimized` is `infer : String → String → Except String String`
  and `serde_json::from_str::<Value>` is `jsonParse : String → Option Json`.
* Notification sends are observable outputs: the pipeline returns the list
  of `Notification`s it dispatched instead of performing HTTP calls.
-/

namespace JsonOracle

/-! ## JSON values -/

inductive Json where
  | null : Json
  | bool (b : Bool) : Json
  | num (q : ℚ) : Json
  | str (s : String) : Json
  | arr (items : List Json) : Json
  | obj (fields : List (String × Json)) : Json

/-- `serde_json::Value::get(key)` on an object: first field with that key. -/
def Json.getField : Json → String → Option Json
  | Json.obj fields, key => (fields.find? (fun p => p.1 == key)).map Prod.snd
  | _, _ => none

/-- `serde_json::Value::as_array()`. -/
def Json.asArray : Json → Option (List Json)
  | Json.arr items => some items
  | _ => none

/-! ## Data model (`Integration`, `IntegrationAnalysisResult`, requests) -/

inductive SystemType where
  | Webhook | RestApi | Database | FileSystem | MessageQueue | Custom
deriving DecidableEq

inductive IntegrationStatus where
  | Active | Inactive | Error | Pending
deriving DecidableEq

inductive AnalysisStatus where
  | Processing | Completed | Failed | Pending
deriving DecidableEq

structure NotificationSettings where
  email_notifications : Bool
  webhook_notifications : Bool
  dashboard_alerts : Bool
  real_time_updates : Bool

structure IntegrationConfig where
  auto_analyze : Bool
  analysis_domain : Option String
  ai_model : Option String
  notification_settings : NotificationSettings
  data_filters : List String

structure Integration where
  id : String
  name : String
  system_type : SystemType
  api_key : String
  webhook_url : Option String
  status : IntegrationStatus
  created_at : Int
  last_activity : Option Int
  configuration : IntegrationConfig

structure IntegrationAnalysisResult where
  id : String
  integration_id : String
  system_name : String
  data_source : String
  analysis_result : Json
  status : AnalysisStatus
  created_at : Int
  processing_time : ℚ
  insights_count : Nat
  recommendations_count : Nat

structure CreateIntegrationRequest where
  name : String
  system_type : SystemType
  webhook_url : Option String
  configuration : IntegrationConfig

structure AnalysisRequest where
  integration_id : String
  api_key : String
  data : Json
  domain : Option String
  model : Option String
  callback_url : Option String

/-- The shared state: both `HashMap`s of `IntegrationManager`. -/
structure IntegrationManager where
  integrations : List (String × Integration)
  analysis_results : List (String × List IntegrationAnalysisResult)

/-- A notification dispatched by the pipeline (observable output). -/
inductive Notification where
  | webhook (url : String)
  | callback (url : String)
deriving DecidableEq

/-! ## Association-list operations standing in for `HashMap` -/

/-- `HashMap::get`. -/
def mapGet {α : Type} (key : String) (m : List (String × α)) : Option α :=
  (m.find? (fun p => p.1 == key)).map Prod.snd

/-- `HashMap::insert` (replaces any existing binding). -/
def mapInsert {α : Type} (key : String) (v : α) (m : List (String × α)) :
    List (String × α) :=
  (key, v) :: m.filter (fun p => !(p.1 == key))

/-- `HashMap::remove`. -/
def mapRemove {α : Type} (key : String) (m : List (String × α)) :
    List (String × α) :=
  m.filter (fun p => !(p.1 == key))

/-- `if let Some(v) = map.get_mut(key) { *v = f(v) }`. -/
def mapModify {α : Type} (key : String) (f : α → α) (m : List (String × α)) :
    List (String × α) :=
  m.map (fun p => if p.1 == key then (p.1, f p.2) else p)

/-- `Vec::last_mut` update: replace the last element of a non-empty vector,
do nothing on an empty one. -/
def replaceLastVec {α : Type} (v : List α) (r : α) : List α :=
  match v with
  | [] => []
  | _ :: _ => v.dropLast ++ [r]

/-! ## IntegrationManager operations -/

/-- `IntegrationManager::create_integration`. The fresh UUID-based
`integration_id` and `api_key` and the clock reading are inputs. -/
def create_integration (mgr : IntegrationManager)
    (request : CreateIntegrationRequest)
    (integration_id api_key : String) (now : Int) :
    Integration × IntegrationManager :=
  let integration : Integration :=
    { id := integration_id
      name := request.name
      system_type := request.system_type
      api_key := api_key
      webhook_url := request.webhook_url
      status := IntegrationStatus.Active
      created_at := now
      last_activity := none
      configuration := request.configuration }
  (integration,
   { integrations := mapInsert integration_id integration mgr.integrations
     analysis_results := mapInsert integration_id [] mgr.analysis_results })

/-- `IntegrationManager::get_integration`. -/
def get_integration (mgr : IntegrationManager) (id : String) :
    Option Integration :=
  mapGet id mgr.integrations

/-- `IntegrationManager::get_integration_by_api_key`:
`integrations.values().find(|i| i.api_key == api_key)`. -/
def get_integration_by_api_key (mgr : IntegrationManager) (api_key : String) :
    Option Integration :=
  (mgr.integrations.map Prod.snd).find? (fun i => i.api_key == api_key)

/-- `IntegrationManager::delete_integration`: removes from both maps and
returns `true` unconditionally. -/
def delete_integration (mgr : IntegrationManager) (id : String) :
    Bool × IntegrationManager :=
  (true,
   { integrations := mapRemove id mgr.integrations
     analysis_results := mapRemove id mgr.analysis_results })

/-! ## Response interpreter -/

/-- Rust `str::contains` (literal substring containment). -/
def containsSubstring (haystack needle : String) : Bool :=
  (List.range (haystack.data.length + 1)).any
    (fun i => needle.data.isPrefixOf (haystack.data.drop i))

/-- `IntegrationManager::extract_insights`. -/
def extract_insights (response : String) : List Json :=
  let insights : List Json := []
  let insights :=
    if containsSubstring response "pattern" || containsSubstring response "trend" then
      insights ++ [Json.obj
        [("type", Json.str "pattern"),
         ("title", Json.str "Pattern Detected"),
         ("description", Json.str "Data patterns identified in the analysis"),
         ("confidence", Json.num (85/100))]]
    else insights
  let insights :=
    if containsSubstring response "anomaly" || containsSubstring response "outlier" then
      insights ++ [Json.obj
        [("type", Json.str "anomaly"),
         ("title", Json.str "Anomaly Found"),
         ("description", Json.str "Unusual data points detected"),
         ("confidence", Json.num (75/100))]]
    else insights
  insights

/-- `IntegrationManager::extract_recommendations`. -/
def extract_recommendations (response : String) : List String :=
  let recs : List String := []
  let recs :=
    if containsSubstring response "optimize" then
      recs ++ ["Consider optimizing data processing"]
    else recs
  let recs :=
    if containsSubstring response "monitor" then
      recs ++ ["Implement continuous monitoring"]
    else recs
  let recs :=
    if response.isEmpty then
      recs ++ ["Review analysis results for actionable insights"]
    else recs
  recs

/-- `IntegrationManager::count_insights`. -/
def count_insights (result : Json) : Nat :=
  match (result.getField "insights").bind Json.asArray with
  | some insights => insights.length
  | none => 0

/-- `IntegrationManager::count_recommendations`. -/
def count_recommendations (result : Json) : Nat :=
  match (result.getField "recommendations").bind Json.asArray with
  | some recommendations => recommendations.length
  | none => 0

/-- `IntegrationManager::count_data_points`. -/
def count_data_points (data : Json) : Nat :=
  match data with
  | Json.arr a => a.length
  | Json.obj o => o.length
  | _ => 1

/-- `IntegrationManager::sample_data`. -/
def sample_data (data : Json) : Json :=
  match data with
  | Json.arr a =>
      if a.length > 3 then
        Json.obj [("type", Json.str "array"),
                  ("length", Json.num a.length),
                  ("sample", Json.arr (a.take 3))]
      else data
  | Json.obj o =>
      if o.length > 5 then
        Json.obj [("type", Json.str "object"),
                  ("total_keys", Json.num o.length),
                  ("sample", Json.obj (o.take 5))]
      else data
  | _ => data

/-- `IntegrationManager::parse_ai_response`. `parsed` is the outcome of the
external `serde_json::from_str::<Value>(ai_response)` attempt; `now_rfc3339`
is the `Utc::now().to_rfc3339()` clock reading. -/
def parse_ai_response (parsed : Option Json) (ai_response : String)
    (original_data : Json) (now_rfc3339 : String) : Json :=
  match parsed with
  | some json => json
  | none =>
      Json.obj
        [("summary", Json.str ai_response),
         ("insights", Json.arr (extract_insights ai_response)),
         ("recommendations",
          Json.arr ((extract_recommendations ai_response).map Json.str)),
         ("metrics", Json.obj
            [("data_points", Json.num (count_data_points original_data)),
             ("analysis_confidence", Json.num (85/100)),
             ("processing_timestamp", Json.str now_rfc3339)]),
         ("original_data_sample", sample_data original_data)]

/-! ## Analysis pipeline -/

/-- The prompt string built at lines 224–228 of the source. -/
def build_prompt (domain name : String) : String :=
  "Analyze this " ++ domain ++ " data from external system '" ++ name ++
    "' and provide comprehensive insights:"

/-- The in-flight `IntegrationAnalysisResult` record built at lines 199–210
of the source (`status = Processing`, empty payload and counts). -/
def pending_record (integration : Integration) (result_id : String)
    (now : Int) : IntegrationAnalysisResult :=
  { id := result_id
    integration_id := integration.id
    system_name := integration.name
    data_source := "external_system"
    analysis_result := Json.null
    status := AnalysisStatus.Processing
    created_at := now
    processing_time := 0
    insights_count := 0
    recommendations_count := 0 }

/-- The record finalized on inference success (lines 238–242). -/
def completed_record (pending : IntegrationAnalysisResult)
    (structured_result : Json) (processing_time : ℚ) :
    IntegrationAnalysisResult :=
  { pending with
      analysis_result := structured_result
      status := AnalysisStatus.Completed
      processing_time := processing_time
      insights_count := count_insights structured_result
      recommendations_count := count_recommendations structured_result }

/-- The record finalized on inference failure (lines 268–271). -/
def failed_record (pending : IntegrationAnalysisResult) (e : String) :
    IntegrationAnalysisResult :=
  { pending with
      status := AnalysisStatus.Failed
      analysis_result :=
        Json.obj [("error", Json.str ("Analysis failed: " ++ e))] }

/-- The notifications dispatched on the success path (lines 254–262):
webhook if the integration has a webhook URL, callback if the request
carries one. -/
def success_notifications (integration : Integration)
    (request : AnalysisRequest) : List Notification :=
  (match integration.webhook_url with
   | some url => [Notification.webhook url]
   | none => []) ++
  (match request.callback_url with
   | some url => [Notification.callback url]
   | none => [])

/-- `IntegrationManager::process_analysis_request`.

External capabilities and clock readings are parameters: `infer` is
`ollama_client.generate_optimized(model, prompt)`; `jsonParse` is
`serde_json::from_str::<Value>`; `result_id` is the fresh UUID;
`now` is `Utc::now()` at record creation; `processing_time` is the elapsed
wall time measured from `start_time`; `now_rfc3339` is the timestamp string
in the synthesized metrics.

Returns the caller-visible `Result`, the post-call state and the list of
notifications dispatched. -/
def process_analysis_request (mgr : IntegrationManager)
    (request : AnalysisRequest)
    (infer : String → String → Except String String)
    (jsonParse : String → Option Json)
    (result_id : String) (now : Int) (processing_time : ℚ)
    (now_rfc3339 : String) :
    Except String IntegrationAnalysisResult × IntegrationManager ×
      List Notification :=
  match get_integration_by_api_key mgr request.api_key with
  | none => (Except.error "Invalid API key", mgr, [])
  | some integration =>
    if integration.status = IntegrationStatus.Inactive then
      (Except.error "Integration is inactive", mgr, [])
    else
      let analysis_result := pending_record integration result_id now
      let results1 :=
        mapModify integration.id (fun v => v ++ [analysis_result])
          mgr.analysis_results
      let domain := request.domain.getD "generic"
      let model := request.model.getD "llama2"
      let prompt := build_prompt domain integration.name
      match infer model prompt with
      | Except.ok ai_response =>
        let structured_result :=
          parse_ai_response (jsonParse ai_response) ai_response request.data
            now_rfc3339
        let final :=
          completed_record analysis_result structured_result processing_time
        let results2 :=
          mapModify integration.id (fun v => replaceLastVec v final) results1
        (Except.ok final, { mgr with analysis_results := results2 },
         success_notifications integration request)
      | Except.error e =>
        let final := failed_record analysis_result e
        let results2 :=
          mapModify integration.id (fun v => replaceLastVec v final) results1
        (Except.error ("Analysis failed: " ++ e),
         { mgr with analysis_results := results2 }, [])

/-- `IntegrationManager::get_analysis_results` (sort newest-first, truncate). -/
def get_analysis_results (mgr : IntegrationManager) (integration_id : String)
    (limit : Option Nat) : List IntegrationAnalysisResult :=
  match mapGet integration_id mgr.analysis_results with
  | some integration_results =>
      let sorted_results :=
        integration_results.mergeSort (fun a b => b.created_at ≤ a.created_at)
      match limit with
      | some l => sorted_results.take l
      | none => sorted_results
  | none => []

/-! ## Dashboard aggregator -/

/-- `results.values().map(|v| v.len()).sum()`. -/
def total_analyses (mgr : IntegrationManager) : Nat :=
  (mgr.analysis_results.map (fun p => p.2.length)).sum

/-- `results.values().flat_map(..).filter(Completed).count()`. -/
def successful_analyses (mgr : IntegrationManager) : Nat :=
  (((mgr.analysis_results.map Prod.snd).flatten).filter
    (fun r => r.status == AnalysisStatus.Completed)).length

/-- `integrations.values().filter(Active).count()`. -/
def active_integrations (mgr : IntegrationManager) : Nat :=
  ((mgr.integrations.map Prod.snd).filter
    (fun i => i.status == IntegrationStatus.Active)).length

/-- Results created within the trailing 24 hours (`now` and `created_at` are
timestamps in hours). -/
def recent_analyses (mgr : IntegrationManager) (now : Int) : Nat :=
  (((mgr.analysis_results.map Prod.snd).flatten).filter
    (fun r => decide (now - 24 < r.created_at))).length

/-- The `success_rate` field: `successful as f64 / total as f64` when
`total > 0`, else `0.0`; division modelled exactly in `ℚ`. -/
def success_rate (mgr : IntegrationManager) : ℚ :=
  if 0 < total_analyses mgr then
    (successful_analyses mgr : ℚ) / (total_analyses mgr : ℚ)
  else 0

/-- `IntegrationManager::get_dashboard_stats`. -/
def get_dashboard_stats (mgr : IntegrationManager) (now : Int) : Json :=
  Json.obj
    [("total_integrations", Json.num mgr.integrations.length),
     ("active_integrations", Json.num (active_integrations mgr)),
     ("total_analyses", Json.num (total_analyses mgr)),
     ("successful_analyses", Json.num (successful_analyses mgr)),
     ("recent_analyses_24h", Json.num (recent_analyses mgr now)),
     ("success_rate", Json.num (success_rate mgr))]

/-! ## Concrete fixtures for witnesses and counterexamples -/

/-- Projects the status out of a pipeline result (`None` on an error). -/
def resultStatus :
    Except String IntegrationAnalysisResult → Option AnalysisStatus
  | Except.ok r => some r.status
  | Except.error _ => none

/-- Projects the caller-visible summary of a pipeline result: status, the
payload's `insights` and `recommendations` fields, and the two counts
(`None` on an error). -/
def resultSummary (x : Except String IntegrationAnalysisResult) :
    Option (AnalysisStatus × Option Json × Option Json × Nat × Nat) :=
  match x with
  | Except.ok r =>
      some (r.status, r.analysis_result.getField "insights",
        r.analysis_result.getField "recommendations", r.insights_count,
        r.recommendations_count)
  | Except.error _ => none

/-- The pattern-type insight synthesized by `extract_insights`. -/
def patternInsight : Json :=
  Json.obj
    [("type", Json.str "pattern"),
     ("title", Json.str "Pattern Detected"),
     ("description", Json.str "Data patterns identified in the analysis"),
     ("confidence", Json.num (85/100))]

/-- A well-formed JSON payload whose `insights` key is a 2-element array and
whose `recommendations` key is present but not an array. -/
def jAdopted : Json :=
  Json.obj
    [("insights", Json.arr [Json.null, Json.null]),
     ("recommendations", Json.str "nope")]

def ns0 : NotificationSettings :=
  { email_notifications := false
    webhook_notifications := false
    dashboard_alerts := false
    real_time_updates := false }

def cfg0 : IntegrationConfig :=
  { auto_analyze := true
    analysis_domain := none
    ai_model := none
    notification_settings := ns0
    data_filters := [] }

/-- An Active integration as created by `Create("Shop1", RestApi, ...)`. -/
def integShop1 : Integration :=
  { id := "i1"
    name := "Shop1"
    system_type := SystemType.RestApi
    api_key := "keyA"
    webhook_url := none
    status := IntegrationStatus.Active
    created_at := 0
    last_activity := none
    configuration := cfg0 }

def mgrShop1 : IntegrationManager :=
  { integrations := [("i1", integShop1)]
    analysis_results := [("i1", [])] }

/-- An integration whose status is `Error` (not `Active`, not `Inactive`). -/
def integErrSt : Integration :=
  { integShop1 with
      id := "i2", name := "Sys2", api_key := "keyE"
      status := IntegrationStatus.Error }

def mgrErrSt : IntegrationManager :=
  { integrations := [("i2", integErrSt)]
    analysis_results := [("i2", [])] }

/-- An `Inactive` integration. -/
def integInact : Integration :=
  { integShop1 with
      id := "i4", name := "Sys4", api_key := "keyI"
      status := IntegrationStatus.Inactive }

def mgrInact : IntegrationManager :=
  { integrations := [("i4", integInact)]
    analysis_results := [("i4", [])] }

/-- An Active integration with a webhook URL but with the
`webhook_notifications` toggle disabled (`cfg0`). -/
def integW : Integration :=
  { integShop1 with
      id := "i3", name := "Sys3", api_key := "keyW"
      webhook_url := some "http://w" }

def mgrW : IntegrationManager :=
  { integrations := [("i3", integW)]
    analysis_results := [("i3", [])] }

/-- The `Submit(A, data={"x":1}, domain="ecommerce", model="llama2")`
request of the spec scenario. -/
def reqShop1 : AnalysisRequest :=
  { integration_id := "i1"
    api_key := "keyA"
    data := Json.obj [("x", Json.num 1)]
    domain := some "ecommerce"
    model := some "llama2"
    callback_url := none }

/-- The mocked plain-text inference response of the spec scenario. -/
def mockResponse : String := "We see a pattern and recommend you optimize"

/-- A manager holding one already-Completed result, for the terminality
witness. -/
def doneRecord : IntegrationAnalysisResult :=
  { id := "r0"
    integration_id := "i1"
    system_name := "Shop1"
    data_source := "external_system"
    analysis_result := Json.null
    status := AnalysisStatus.Completed
    created_at := 0
    processing_time := 1
    insights_count := 0
    recommendations_count := 0 }

def mgrDone : IntegrationManager :=
  { integrations := [("i1", integShop1)]
    analysis_results := [("i1", [doneRecord])] }

/-! ## Helper lemmas about the map operations -/

theorem mapGet_mapModify {α : Type} (k k₀ : String) (f : α → α)
    (m : List (String × α)) :
    mapGet k (mapModify k₀ f m) =
      if k = k₀ then (mapGet k m).map f else mapGet k m := by
  have hq : ((fun p : String × α => p.1 == k) ∘
      (fun p : String × α => if p.1 == k₀ then (p.1, f p.2) else p)) =
      fun p : String × α => p.1 == k := by
    funext p
    simp only [Function.comp_apply]
    split <;> rfl
  unfold mapGet mapModify
  rw [List.find?_map, hq]
  cases hfind : m.find? (fun p => p.1 == k) with
  | none => by_cases h : k = k₀ <;> simp [h, hfind]
  | some a =>
    have ha := List.find?_some hfind
    have ha' : a.1 = k := by simpa using ha
    by_cases h : k = k₀
    · subst h
      simp [hfind, Option.map_map, ha, ha']
    · simp [hfind, Option.map_map, ha', h]

theorem mapGet_mapRemove_self {α : Type} (k : String)
    (m : List (String × α)) :
    mapGet k (mapRemove k m) = none := by
  unfold mapGet mapRemove
  rw [Option.map_eq_none', List.find?_eq_none]
  intro p hp
  rcases (List.mem_filter.mp hp) with ⟨_, hpk⟩
  simp at hpk
  simp [hpk]

theorem mapRemove_eq_self_of_get_none {α : Type} (k : String)
    (m : List (String × α)) (h : mapGet k m = none) :
    mapRemove k m = m := by
  unfold mapGet at h
  rw [Option.map_eq_none', List.find?_eq_none] at h
  unfold mapRemove
  apply List.filter_eq_self.mpr
  intro p hp
  simpa using h p hp

/-! ## Path characterizations of `process_analysis_request` -/

theorem process_eq_of_key_none (mgr : IntegrationManager)
    (request : AnalysisRequest)
    (infer : String → String → Except String String)
    (jsonParse : String → Option Json) (rid : String) (now : Int)
    (pt : ℚ) (ts : String)
    (h : get_integration_by_api_key mgr request.api_key = none) :
    process_analysis_request mgr request infer jsonParse rid now pt ts =
      (Except.error "Invalid API key", mgr, []) := by
  unfold process_analysis_request
  rw [h]

theorem process_eq_of_inactive (mgr : IntegrationManager)
    (request : AnalysisRequest)
    (infer : String → String → Except String String)
    (jsonParse : String → Option Json) (rid : String) (now : Int)
    (pt : ℚ) (ts : String) (integration : Integration)
    (hk : get_integration_by_api_key mgr request.api_key = some integration)
    (hs : integration.status = IntegrationStatus.Inactive) :
    process_analysis_request mgr request infer jsonParse rid now pt ts =
      (Except.error "Integration is inactive", mgr, []) := by
  unfold process_analysis_request
  rw [hk]
  simp only [hs, if_pos]

theorem process_eq_of_infer_ok (mgr : IntegrationManager)
    (request : AnalysisRequest)
    (infer : String → String → Except String String)
    (jsonParse : String → Option Json) (rid : String) (now : Int)
    (pt : ℚ) (ts : String) (integration : Integration) (ai_response : String)
    (hk : get_integration_by_api_key mgr request.api_key = some integration)
    (hs : integration.status ≠ IntegrationStatus.Inactive)
    (hi : infer (request.model.getD "llama2")
        (build_prompt (request.domain.getD "generic") integration.name) =
      Except.ok ai_response) :
    process_analysis_request mgr request infer jsonParse rid now pt ts =
      (Except.ok
        (completed_record (pending_record integration rid now)
          (parse_ai_response (jsonParse ai_response) ai_response request.data
            ts) pt),
       { mgr with analysis_results :=
           (mapModify integration.id
             (fun v => replaceLastVec v
               (completed_record (pending_record integration rid now)
                 (parse_ai_response (jsonParse ai_response) ai_response
                   request.data ts) pt))
             (mapModify integration.id
               (fun v => v ++ [pending_record integration rid now])
               mgr.analysis_results)) },
       success_notifications integration request) := by
  unfold process_analysis_request
  rw [hk]
  simp only [if_neg hs, hi]

theorem process_eq_of_infer_error (mgr : IntegrationManager)
    (request : AnalysisRequest)
    (infer : String → String → Except String String)
    (jsonParse : String → Option Json) (rid : String) (now : Int)
    (pt : ℚ) (ts : String) (integration : Integration) (e : String)
    (hk : get_integration_by_api_key mgr request.api_key = some integration)
    (hs : integration.status ≠ IntegrationStatus.Inactive)
    (hi : infer (request.model.getD "llama2")
        (build_prompt (request.domain.getD "generic") integration.name) =
      Except.error e) :
    process_analysis_request mgr request infer jsonParse rid now pt ts =
      (Except.error ("Analysis failed: " ++ e),
       { mgr with analysis_results :=
           (mapModify integration.id
             (fun v => replaceLastVec v
               (failed_record (pending_record integration rid now) e))
             (mapModify integration.id
               (fun v => v ++ [pending_record integration rid now])
               mgr.analysis_results)) },
       []) := by
  unfold process_analysis_request
  rw [hk]
  simp only [if_neg hs, hi]

theorem replaceLastVec_concat {α : Type} (v : List α) (x r : α) :
    replaceLastVec (v ++ [x]) r = v ++ [r] := by
  cases v with
  | nil => rfl
  | cons a t =>
    show ((a :: t) ++ [x]).dropLast ++ [r] = (a :: t) ++ [r]
    rw [List.dropLast_concat]

/-! ## Claim C5 -/

/-- C5: for every apiKey that matches no integration, Submit returns the
`InvalidCredential` error (`"Invalid API key"`) and creates no
`AnalysisResult` record: the whole state — in particular the
`analysis_results` map — is returned unchanged, and nothing is notified. -/
theorem C5_unknown_key_rejected_without_record (mgr : IntegrationManager)
    (request : AnalysisRequest)
    (infer : String → String → Except String String)
    (jsonParse : String → Option Json) (rid : String) (now : Int)
    (pt : ℚ) (ts : String)
    (h : get_integration_by_api_key mgr request.api_key = none) :
    process_analysis_request mgr request infer jsonParse rid now pt ts =
      (Except.error "Invalid API key", mgr, []) :=
  process_eq_of_key_none mgr request infer jsonParse rid now pt ts h

/-- C5 witness: submitting with the unknown apiKey `"bogus"` against a store
holding only `integShop1` is rejected and appends nothing. -/
theorem C5_unknown_key_rejected_without_record_witness :
    process_analysis_request mgrShop1 { reqShop1 with api_key := "bogus" }
      (fun _ _ => Except.ok "x") (fun _ => none) "r1" 0 0 "ts" =
      (Except.error "Invalid API key", mgrShop1, []) :=
  C5_unknown_key_rejected_without_record mgrShop1
    { reqShop1 with api_key := "bogus" } (fun _ _ => Except.ok "x")
    (fun _ => none) "r1" 0 0 "ts" rfl

/-! ## Claim C1 -/

/-- C1 counterexample: an integration whose status is `Error` (so not
Active) is NOT rejected: the submission runs to `Completed` and a result
record is appended to its sequence, contrary to the claim that every
non-Active status yields `IntegrationInactive` with no record. -/
theorem C1_counterexample_error_status_accepted :
    integErrSt.status = IntegrationStatus.Error ∧
    resultStatus
        (process_analysis_request mgrErrSt { reqShop1 with api_key := "keyE" }
          (fun _ _ => Except.ok "x") (fun _ => none) "r1" 0 0 "ts").1 =
      some AnalysisStatus.Completed ∧
    (mapGet "i2"
        (process_analysis_request mgrErrSt { reqShop1 with api_key := "keyE" }
          (fun _ _ => Except.ok "x") (fun _ => none) "r1" 0 0
          "ts").2.1.analysis_results).map List.length = some 1 :=
  ⟨rfl, rfl, rfl⟩

/-- C1 (amended): only status `Inactive` is rejected. If the resolved
integration's status is `Inactive`, Submit returns the
`IntegrationInactive` error and creates no record (state unchanged, nothing
notified); if the status is anything else (`Active`, `Error` or `Pending`),
the pre-flight check passes and a result record is appended to the
integration's sequence. -/
theorem C1_amended_only_inactive_rejected (mgr : IntegrationManager)
    (request : AnalysisRequest)
    (infer : String → String → Except String String)
    (jsonParse : String → Option Json) (rid : String) (now : Int)
    (pt : ℚ) (ts : String) (integration : Integration)
    (hk : get_integration_by_api_key mgr request.api_key =
      some integration) :
    (integration.status = IntegrationStatus.Inactive →
      process_analysis_request mgr request infer jsonParse rid now pt ts =
        (Except.error "Integration is inactive", mgr, [])) ∧
    (integration.status ≠ IntegrationStatus.Inactive →
      ∀ v, mapGet integration.id mgr.analysis_results = some v →
        (mapGet integration.id
            (process_analysis_request mgr request infer jsonParse rid now pt
              ts).2.1.analysis_results).map List.length =
          some (v.length + 1)) := by
  constructor
  · intro hs
    exact process_eq_of_inactive mgr request infer jsonParse rid now pt ts
      integration hk hs
  · intro hs v hv
    have hlen : ∀ final : IntegrationAnalysisResult,
        (mapGet integration.id
            (mapModify integration.id (fun w => replaceLastVec w final)
              (mapModify integration.id
                (fun w => w ++ [pending_record integration rid now])
                mgr.analysis_results))).map List.length =
          some (v.length + 1) := by
      intro final
      rw [mapGet_mapModify, mapGet_mapModify]
      simp [hv, replaceLastVec_concat]
    cases hinf : infer (request.model.getD "llama2")
        (build_prompt (request.domain.getD "generic") integration.name) with
    | ok ai_response =>
      rw [process_eq_of_infer_ok mgr request infer jsonParse rid now pt ts
        integration ai_response hk hs hinf]
      exact hlen _
    | error e =>
      rw [process_eq_of_infer_error mgr request infer jsonParse rid now pt ts
        integration e hk hs hinf]
      exact hlen _

/-- C1 amended witness: the Inactive integration `integInact` is rejected
with no record; the Active integration `integShop1` gets a record appended. -/
theorem C1_amended_only_inactive_rejected_witness :
    (process_analysis_request mgrInact { reqShop1 with api_key := "keyI" }
        (fun _ _ => Except.ok "x") (fun _ => none) "r1" 0 0 "ts" =
      (Except.error "Integration is inactive", mgrInact, [])) ∧
    ((mapGet "i1"
        (process_analysis_request mgrShop1 reqShop1
          (fun _ _ => Except.ok "x") (fun _ => none) "r1" 0 0
          "ts").2.1.analysis_results).map List.length = some 1) := by
  constructor
  · exact (C1_amended_only_inactive_rejected mgrInact
      { reqShop1 with api_key := "keyI" } (fun _ _ => Except.ok "x")
      (fun _ => none) "r1" 0 0 "ts" integInact rfl).1 rfl
  · exact (C1_amended_only_inactive_rejected mgrShop1 reqShop1
      (fun _ _ => Except.ok "x") (fun _ => none) "r1" 0 0 "ts" integShop1
      rfl).2 (by decide) [] rfl

/-! ## Claim C2 -/

/-- C2 counterexample: deleting an id that is absent from the store returns
`true`, not `false` — the empty store has no `"x"`, yet
`delete_integration` signals success. -/
theorem C2_counterexample_absent_id_returns_true :
    mapGet "x" (IntegrationManager.mk [] []).integrations = none ∧
    (delete_integration (IntegrationManager.mk [] []) "x").1 = true :=
  ⟨rfl, rfl⟩

/-- C2 (amended): `delete_integration` always returns `true`, for absent
ids as well as present ones. It removes the id from both maps (afterwards
neither map has the id); when the id is absent from a map, that map is left
unchanged (idempotent no-op). -/
theorem C2_amended_delete_always_true (mgr : IntegrationManager)
    (id : String) :
    (delete_integration mgr id).1 = true ∧
    mapGet id (delete_integration mgr id).2.integrations = none ∧
    mapGet id (delete_integration mgr id).2.analysis_results = none ∧
    (mapGet id mgr.integrations = none →
      (delete_integration mgr id).2.integrations = mgr.integrations) ∧
    (mapGet id mgr.analysis_results = none →
      (delete_integration mgr id).2.analysis_results =
        mgr.analysis_results) := by
  refine ⟨rfl, mapGet_mapRemove_self id mgr.integrations,
    mapGet_mapRemove_self id mgr.analysis_results, ?_, ?_⟩
  · exact mapRemove_eq_self_of_get_none id mgr.integrations
  · exact mapRemove_eq_self_of_get_none id mgr.analysis_results

/-- C2 amended witness: deleting the absent id `"zzz"` from `mgrShop1`
returns `true` and leaves both maps unchanged; deleting the present id
`"i1"` removes it. -/
theorem C2_amended_delete_always_true_witness :
    ((delete_integration mgrShop1 "zzz").1 = true ∧
      (delete_integration mgrShop1 "zzz").2.integrations =
        mgrShop1.integrations) ∧
    mapGet "i1" (delete_integration mgrShop1 "i1").2.integrations = none := by
  refine ⟨⟨(C2_amended_delete_always_true mgrShop1 "zzz").1,
    (C2_amended_delete_always_true mgrShop1 "zzz").2.2.2.1 rfl⟩,
    (C2_amended_delete_always_true mgrShop1 "i1").2.1⟩

/-! ## Claim C4 -/

/-- C4 counterexample: an accepted submission at time 100 runs to
`Completed`, yet the integration's `last_activity` is still `None`
afterwards — it is not updated to the submission time as claimed. -/
theorem C4_counterexample_last_activity_not_updated :
    resultStatus
        (process_analysis_request mgrShop1 reqShop1
          (fun _ _ => Except.ok "x") (fun _ => none) "r1" 100 1 "ts").1 =
      some AnalysisStatus.Completed ∧
    (get_integration
        (process_analysis_request mgrShop1 reqShop1
          (fun _ _ => Except.ok "x") (fun _ => none) "r1" 100 1 "ts").2.1
        "i1").map Integration.last_activity = some none :=
  ⟨rfl, rfl⟩

/-- C4 (amended): `process_analysis_request` never writes the integrations
map: for every state, request and environment the post-call `integrations`
map equals the pre-call one, so in particular `last_activity` keeps the
value set at creation (`None`) and is not updated on accepted
submissions. -/
theorem C4_amended_submit_leaves_integrations_unchanged
    (mgr : IntegrationManager) (request : AnalysisRequest)
    (infer : String → String → Except String String)
    (jsonParse : String → Option Json) (rid : String) (now : Int)
    (pt : ℚ) (ts : String) :
    (process_analysis_request mgr request infer jsonParse rid now pt
      ts).2.1.integrations = mgr.integrations := by
  cases hk : get_integration_by_api_key mgr request.api_key with
  | none => rw [process_eq_of_key_none mgr request infer jsonParse rid now pt
      ts hk]
  | some integration =>
    by_cases hs : integration.status = IntegrationStatus.Inactive
    · rw [process_eq_of_inactive mgr request infer jsonParse rid now pt ts
        integration hk hs]
    · cases hinf : infer (request.model.getD "llama2")
          (build_prompt (request.domain.getD "generic") integration.name) with
      | ok ai_response =>
        rw [process_eq_of_infer_ok mgr request infer jsonParse rid now pt ts
          integration ai_response hk hs hinf]
      | error e =>
        rw [process_eq_of_infer_error mgr request infer jsonParse rid now pt
          ts integration e hk hs hinf]

/-! ## Claim C3 -/

/-- C3 counterexample: `integW` has `webhook_notifications = false` in its
`notification_settings`, yet a successful submission still sends the webhook
notification to its webhook URL — the toggle is never consulted. -/
theorem C3_counterexample_webhook_sent_despite_disabled_toggle :
    integW.configuration.notification_settings.webhook_notifications =
      false ∧
    (process_analysis_request mgrW { reqShop1 with api_key := "keyW" }
        (fun _ _ => Except.ok "x") (fun _ => none) "r1" 0 0 "ts").2.2 =
      [Notification.webhook "http://w"] :=
  ⟨rfl, rfl⟩

/-- C3 (amended): on a successful inference, the webhook notification is
sent if and only if the integration has a webhook URL — the
`webhook_notifications` toggle of `notification_settings` is never read
(the statement holds for every `configuration`) — and the caller-supplied
callback URL is notified if and only if it was supplied. -/
theorem C3_amended_notifications_iff_urls (mgr : IntegrationManager)
    (request : AnalysisRequest)
    (infer : String → String → Except String String)
    (jsonParse : String → Option Json) (rid : String) (now : Int)
    (pt : ℚ) (ts : String) (integration : Integration) (ai_response : String)
    (hk : get_integration_by_api_key mgr request.api_key =
      some integration)
    (hs : integration.status ≠ IntegrationStatus.Inactive)
    (hi : infer (request.model.getD "llama2")
        (build_prompt (request.domain.getD "generic") integration.name) =
      Except.ok ai_response) :
    (∀ url, Notification.webhook url ∈
        (process_analysis_request mgr request infer jsonParse rid now pt
          ts).2.2 ↔ integration.webhook_url = some url) ∧
    (∀ url, Notification.callback url ∈
        (process_analysis_request mgr request infer jsonParse rid now pt
          ts).2.2 ↔ request.callback_url = some url) := by
  rw [process_eq_of_infer_ok mgr request infer jsonParse rid now pt ts
    integration ai_response hk hs hi]
  unfold success_notifications
  constructor <;> intro url <;>
    cases integration.webhook_url <;> cases request.callback_url <;>
      simp [eq_comm]

/-- C3 amended witness: with a webhook URL present (toggle disabled) and a
callback URL supplied, both notifications are dispatched. -/
theorem C3_amended_notifications_iff_urls_witness :
    Notification.webhook "http://w" ∈
      (process_analysis_request mgrW
        { reqShop1 with api_key := "keyW", callback_url := some "http://cb" }
        (fun _ _ => Except.ok "x") (fun _ => none) "r1" 0 0 "ts").2.2 ∧
    Notification.callback "http://cb" ∈
      (process_analysis_request mgrW
        { reqShop1 with api_key := "keyW", callback_url := some "http://cb" }
        (fun _ _ => Except.ok "x") (fun _ => none) "r1" 0 0 "ts").2.2 := by
  have h := C3_amended_notifications_iff_urls mgrW
    { reqShop1 with api_key := "keyW", callback_url := some "http://cb" }
    (fun _ _ => Except.ok "x") (fun _ => none) "r1" 0 0 "ts" integW "x" rfl
    (by decide) rfl
  exact ⟨(h.1 "http://w").mpr rfl, (h.2 "http://cb").mpr rfl⟩

/-! ## Claim C6 -/

/-- C6: records already stored in the result log before a Submit call — in
particular Completed/Failed (terminal) ones — are never changed by that
call: for every integration key, the stored sequence after the call still
holds every pre-existing record unchanged at its index; Submit only appends
one fresh record at the end and replaces the record it itself appended. -/
theorem C6_existing_results_never_mutated (mgr : IntegrationManager)
    (request : AnalysisRequest)
    (infer : String → String → Except String String)
    (jsonParse : String → Option Json) (rid : String) (now : Int)
    (pt : ℚ) (ts : String) (k : String)
    (v : List IntegrationAnalysisResult)
    (hv : mapGet k mgr.analysis_results = some v) :
    ∃ w, mapGet k
        (process_analysis_request mgr request infer jsonParse rid now pt
          ts).2.1.analysis_results = some w ∧
      v.length ≤ w.length ∧
      ∀ i, i < v.length → w[i]? = v[i]? := by
  cases hk : get_integration_by_api_key mgr request.api_key with
  | none =>
    rw [process_eq_of_key_none mgr request infer jsonParse rid now pt ts hk]
    exact ⟨v, hv, le_refl _, fun i _ => rfl⟩
  | some integration =>
    by_cases hs : integration.status = IntegrationStatus.Inactive
    · rw [process_eq_of_inactive mgr request infer jsonParse rid now pt ts
        integration hk hs]
      exact ⟨v, hv, le_refl _, fun i _ => rfl⟩
    · have hcore : ∀ final : IntegrationAnalysisResult,
          ∃ w, mapGet k
              (mapModify integration.id (fun u => replaceLastVec u final)
                (mapModify integration.id
                  (fun u => u ++ [pending_record integration rid now])
                  mgr.analysis_results)) = some w ∧
            v.length ≤ w.length ∧
            ∀ i, i < v.length → w[i]? = v[i]? := by
        intro final
        rw [mapGet_mapModify, mapGet_mapModify]
        by_cases hkk : k = integration.id
        · simp only [if_pos hkk, hv, Option.map_some']
          rw [replaceLastVec_concat]
          refine ⟨v ++ [final], rfl, by simp, ?_⟩
          intro i hi
          exact List.getElem?_append_left hi
        · simp only [if_neg hkk]
          exact ⟨v, hv, le_refl _, fun i _ => rfl⟩
      cases hinf : infer (request.model.getD "llama2")
          (build_prompt (request.domain.getD "generic") integration.name) with
      | ok ai_response =>
        rw [process_eq_of_infer_ok mgr request infer jsonParse rid now pt ts
          integration ai_response hk hs hinf]
        exact hcore _
      | error e =>
        rw [process_eq_of_infer_error mgr request infer jsonParse rid now pt
          ts integration e hk hs hinf]
        exact hcore _

/-- C6 witness: a store already holding the Completed `doneRecord` keeps it
unchanged at index 0 across a fresh Submit against the same integration. -/
theorem C6_existing_results_never_mutated_witness :
    (mapGet "i1"
        (process_analysis_request mgrDone reqShop1
          (fun _ _ => Except.ok "x") (fun _ => none) "r1" 7 1
          "ts").2.1.analysis_results).bind (fun w => w[0]?) =
      some doneRecord := by
  obtain ⟨w, h1, _, h3⟩ := C6_existing_results_never_mutated mgrDone reqShop1
    (fun _ _ => Except.ok "x") (fun _ => none) "r1" 7 1 "ts" "i1"
    [doneRecord] rfl
  rw [h1]
  have := h3 0 (by decide)
  simpa using this

/-! ## Claim C7 -/

/-- Every record counted by `successful_analyses` is also counted by
`total_analyses`. -/
theorem successful_le_total (mgr : IntegrationManager) :
    successful_analyses mgr ≤ total_analyses mgr := by
  unfold successful_analyses total_analyses
  have h1 := List.length_filter_le
    (fun r : IntegrationAnalysisResult =>
      r.status == AnalysisStatus.Completed)
    ((mgr.analysis_results.map Prod.snd).flatten)
  have h2 : ((mgr.analysis_results.map Prod.snd).flatten).length =
      (mgr.analysis_results.map (fun p => p.2.length)).sum := by
    rw [List.length_flatten, List.map_map]
    rfl
  omega

/-- C7: the dashboard snapshot's `success_rate` equals
`successful_analyses / total_analyses` when `total_analyses > 0` and `0`
when `total_analyses = 0` (no division by zero), and it always lies in
`[0, 1]` because every Completed result counted as successful is also
counted in the total. -/
theorem C7_success_rate_bounds (mgr : IntegrationManager) (now : Int) :
    (get_dashboard_stats mgr now).getField "success_rate" =
      some (Json.num (success_rate mgr)) ∧
    0 ≤ success_rate mgr ∧ success_rate mgr ≤ 1 ∧
    (total_analyses mgr = 0 → success_rate mgr = 0) ∧
    (0 < total_analyses mgr →
      success_rate mgr =
        (successful_analyses mgr : ℚ) / (total_analyses mgr : ℚ)) := by
  refine ⟨rfl, ?_, ?_, ?_, ?_⟩
  · unfold success_rate
    split
    · positivity
    · exact le_refl 0
  · unfold success_rate
    split
    · rename_i h
      rw [div_le_one (by exact_mod_cast h)]
      exact_mod_cast successful_le_total mgr
    · norm_num
  · intro h
    unfold success_rate
    simp [h]
  · intro h
    unfold success_rate
    rw [if_pos h]

/-- C7 witness: on `mgrDone` (one Completed result) the rate is the exact
quotient; on the empty store it is `0`. -/
theorem C7_success_rate_bounds_witness :
    success_rate mgrDone =
      (successful_analyses mgrDone : ℚ) / (total_analyses mgrDone : ℚ) ∧
    success_rate (IntegrationManager.mk [] []) = 0 :=
  ⟨(C7_success_rate_bounds mgrDone 0).2.2.2.2 (by decide),
   (C7_success_rate_bounds (IntegrationManager.mk [] []) 0).2.2.2.1 rfl⟩

/-! ## Claim C8 -/

/-- C8: the sample attached to a synthesized payload is the first 3 elements
plus the recorded total length for an array longer than 3 (so exactly 3
sampled elements), the first 5 key/value pairs plus the recorded key count
for an object with more than 5 keys (exactly 5 sampled pairs), and the value
itself in full in every other case. -/
theorem C8_sample_data_spec :
    (∀ a : List Json, 3 < a.length →
      sample_data (Json.arr a) =
        Json.obj [("type", Json.str "array"),
          ("length", Json.num a.length),
          ("sample", Json.arr (a.take 3))] ∧ (a.take 3).length = 3) ∧
    (∀ a : List Json, a.length ≤ 3 →
      sample_data (Json.arr a) = Json.arr a) ∧
    (∀ o : List (String × Json), 5 < o.length →
      sample_data (Json.obj o) =
        Json.obj [("type", Json.str "object"),
          ("total_keys", Json.num o.length),
          ("sample", Json.obj (o.take 5))] ∧ (o.take 5).length = 5) ∧
    (∀ o : List (String × Json), o.length ≤ 5 →
      sample_data (Json.obj o) = Json.obj o) ∧
    sample_data Json.null = Json.null ∧
    (∀ b, sample_data (Json.bool b) = Json.bool b) ∧
    (∀ q, sample_data (Json.num q) = Json.num q) ∧
    (∀ s, sample_data (Json.str s) = Json.str s) := by
  refine ⟨fun a h => ⟨?_, ?_⟩, fun a h => ?_, fun o h => ⟨?_, ?_⟩,
    fun o h => ?_, rfl, fun b => rfl, fun q => rfl, fun s => rfl⟩
  · simp [sample_data, h]
  · simp [List.length_take]
    omega
  · have hn : ¬ (a.length > 3) := by omega
    simp [sample_data, hn]
  · simp [sample_data, h]
  · simp [List.length_take]
    omega
  · have hn : ¬ (o.length > 5) := by omega
    simp [sample_data, hn]

/-- C8 witness: for a concrete 10-element array the sample holds exactly the
first 3 elements and records length 10. -/
theorem C8_sample_data_spec_witness :
    sample_data (Json.arr (List.replicate 10 Json.null)) =
      Json.obj [("type", Json.str "array"),
        ("length", Json.num 10),
        ("sample", Json.arr [Json.null, Json.null, Json.null])] ∧
    ((List.replicate 10 (Json.null)).take 3).length = 3 := by
  have h := (C8_sample_data_spec).1 (List.replicate 10 Json.null)
    (by simp)
  simpa using h

/-! ## Claim C9 -/

/-- C9: submitting against the Active integration with a mocked inference
returning the plain (non-JSON) text
`"We see a pattern and recommend you optimize"` yields a `Completed`
result whose payload's `insights` list is exactly the one pattern-type
insight, whose `recommendations` list is exactly
`["Consider optimizing data processing"]`, with `insights_count = 1` and
`recommendations_count = 1`. The hypothesis records that the mocked text is
not well-formed JSON (`serde_json::from_str` fails on it). -/
theorem C9_plain_text_scenario (jsonParse : String → Option Json)
    (h : jsonParse mockResponse = none) :
    resultSummary
        (process_analysis_request mgrShop1 reqShop1
          (fun _ _ => Except.ok mockResponse) jsonParse "r1" 0 1 "ts").1 =
      some (AnalysisStatus.Completed,
        some (Json.arr [patternInsight]),
        some (Json.arr [Json.str "Consider optimizing data processing"]),
        1, 1) := by
  rw [process_eq_of_infer_ok mgrShop1 reqShop1
    (fun _ _ => Except.ok mockResponse) jsonParse "r1" 0 1 "ts" integShop1
    mockResponse rfl (by decide) rfl]
  rw [h]
  rfl

/-- C9 witness: instantiating the external parser with one that rejects the
mocked plain text. -/
theorem C9_plain_text_scenario_witness :
    resultSummary
        (process_analysis_request mgrShop1 reqShop1
          (fun _ _ => Except.ok mockResponse) (fun _ => none) "r1" 0 1
          "ts").1 =
      some (AnalysisStatus.Completed,
        some (Json.arr [patternInsight]),
        some (Json.arr [Json.str "Consider optimizing data processing"]),
        1, 1) :=
  C9_plain_text_scenario (fun _ => none) rfl

/-! ## Claim C10 -/

/-- C10: when the raw inference text parses as well-formed JSON `j`, the
pipeline adopts `j` verbatim as the payload of the Completed record, and the
stored `insights_count` / `recommendations_count` equal the length of the
payload's top-level `"insights"` / `"recommendations"` arrays when those
keys are present as arrays, and are `0` whenever the key is absent or not
an array — the counts are total over every adopted payload shape. -/
theorem C10_adopted_payload_counts (mgr : IntegrationManager)
    (request : AnalysisRequest)
    (infer : String → String → Except String String)
    (jsonParse : String → Option Json) (rid : String) (now : Int)
    (pt : ℚ) (ts : String) (integration : Integration)
    (ai_response : String) (j : Json)
    (hk : get_integration_by_api_key mgr request.api_key =
      some integration)
    (hs : integration.status ≠ IntegrationStatus.Inactive)
    (hi : infer (request.model.getD "llama2")
        (build_prompt (request.domain.getD "generic") integration.name) =
      Except.ok ai_response)
    (hp : jsonParse ai_response = some j) :
    (process_analysis_request mgr request infer jsonParse rid now pt
        ts).1 =
      Except.ok (completed_record (pending_record integration rid now) j
        pt) ∧
    (completed_record (pending_record integration rid now) j
        pt).analysis_result = j ∧
    (∀ xs, j.getField "insights" = some (Json.arr xs) →
      (completed_record (pending_record integration rid now) j
        pt).insights_count = xs.length) ∧
    ((j.getField "insights").bind Json.asArray = none →
      (completed_record (pending_record integration rid now) j
        pt).insights_count = 0) ∧
    (∀ xs, j.getField "recommendations" = some (Json.arr xs) →
      (completed_record (pending_record integration rid now) j
        pt).recommendations_count = xs.length) ∧
    ((j.getField "recommendations").bind Json.asArray = none →
      (completed_record (pending_record integration rid now) j
        pt).recommendations_count = 0) := by
  refine ⟨?_, rfl, ?_, ?_, ?_, ?_⟩
  · rw [process_eq_of_infer_ok mgr request infer jsonParse rid now pt ts
      integration ai_response hk hs hi, hp]
    rfl
  · intro xs hxs
    show count_insights j = xs.length
    simp [count_insights, hxs, Json.asArray]
  · intro h0
    show count_insights j = 0
    simp [count_insights, h0]
  · intro xs hxs
    show count_recommendations j = xs.length
    simp [count_recommendations, hxs, Json.asArray]
  · intro h0
    show count_recommendations j = 0
    simp [count_recommendations, h0]

/-- C10 witness: a payload whose `insights` is a 2-element array and whose
`recommendations` key is present but not an array is adopted verbatim and
counted as 2 and 0. -/
theorem C10_adopted_payload_counts_witness :
    resultSummary
        (process_analysis_request mgrShop1 reqShop1
          (fun _ _ => Except.ok "raw") (fun _ => some jAdopted) "r1" 0 1
          "ts").1 =
      some (AnalysisStatus.Completed,
        some (Json.arr [Json.null, Json.null]), some (Json.str "nope"),
        2, 0) := by
  obtain ⟨h1, _, _, _, _, _⟩ := C10_adopted_payload_counts mgrShop1
    reqShop1 (fun _ _ => Except.ok "raw") (fun _ => some jAdopted) "r1" 0 1
    "ts" integShop1 "raw" jAdopted rfl (by decide) rfl rfl
  rw [h1]
  rfl

end JsonOracle
